import Mathlib

/-!
Verification of the retrying, key-rotating LLM request orchestration layer of
STUDYBOY-V1 (`src/services/geminiService.ts`): the Key Pool (`ApiKeyManager`),
the Backoff Controller (`retryWithBackoff`), the Response Normalizer (the
`JSON.parse` / brace-repair logic of `processStudyContent` and `extendQuiz`),
the domain-instruction selection, and the façade fallback behaviour.

JavaScript values thrown as errors are modelled by `JsError`; `JSON.parse` is
modelled by `parseJson` over an explicit JSON value type; rationals stand for
the (here exactly representable) JavaScript numbers used in delay arithmetic.
-/

/-- A JSON value, as produced by `JSON.parse`.  Object fields keep source
order; duplicate keys are resolved by `jsonField` the way JavaScript does
(the last occurrence wins). -/
inductive Json where
  | null : Json
  | bool (b : Bool) : Json
  | num (q : ℚ) : Json
  | str (s : String) : Json
  | arr (elems : List Json) : Json
  | obj (fields : List (String × Json)) : Json

/-- JSON insignificant whitespace. -/
def isWsChar (c : Char) : Bool :=
  c = ' ' || c = '\t' || c = '\n' || c = '\r'

def skipWs : List Char → List Char
  | [] => []
  | c :: cs => if isWsChar c then skipWs cs else c :: cs

def hexDigitVal (c : Char) : Option Nat :=
  if '0' ≤ c ∧ c ≤ '9' then some (c.toNat - 48)
  else if 'a' ≤ c ∧ c ≤ 'f' then some (c.toNat - 87)
  else if 'A' ≤ c ∧ c ≤ 'F' then some (c.toNat - 55)
  else none

/-- Body of a JSON string literal, after the opening quote.  `fuel` bounds
recursion; callers supply at least the remaining input length plus one, and
every step consumes at least one input character, so fuel never runs out. -/
def parseStringBody : Nat → List Char → List Char → Option (String × List Char)
  | 0, _, _ => none
  | fuel + 1, acc, input =>
    match input with
    | [] => none
    | '"' :: rest => some (String.mk acc.reverse, rest)
    | '\\' :: rest =>
      match rest with
      | [] => none
      | e :: rest2 =>
        if e = '"' then parseStringBody fuel ('"' :: acc) rest2
        else if e = '\\' then parseStringBody fuel ('\\' :: acc) rest2
        else if e = '/' then parseStringBody fuel ('/' :: acc) rest2
        else if e = 'b' then parseStringBody fuel ('\x08' :: acc) rest2
        else if e = 'f' then parseStringBody fuel ('\x0c' :: acc) rest2
        else if e = 'n' then parseStringBody fuel ('\n' :: acc) rest2
        else if e = 'r' then parseStringBody fuel ('\x0d' :: acc) rest2
        else if e = 't' then parseStringBody fuel ('\t' :: acc) rest2
        else if e = 'u' then
          match rest2 with
          | h1 :: h2 :: h3 :: h4 :: rest3 =>
            match hexDigitVal h1, hexDigitVal h2, hexDigitVal h3, hexDigitVal h4 with
            | some a, some b, some c, some d =>
              parseStringBody fuel (Char.ofNat (((a * 16 + b) * 16 + c) * 16 + d) :: acc) rest3
            | _, _, _, _ => none
          | _ => none
        else none
    | c :: rest =>
      if c.toNat < 32 then none else parseStringBody fuel (c :: acc) rest

def takeDigits : List Char → List Char × List Char
  | [] => ([], [])
  | c :: cs =>
    if c.isDigit then
      let p := takeDigits cs
      (c :: p.1, p.2)
    else ([], c :: cs)

def digitsVal (ds : List Char) : Nat :=
  ds.foldl (fun n c => n * 10 + (c.toNat - 48)) 0

/-- Fraction part of a JSON number (`.` followed by one or more digits),
returned as a rational in `[0,1)`; absent fraction contributes `0`. -/
def parseFrac : List Char → Option (ℚ × List Char)
  | '.' :: r =>
    let p := takeDigits r
    if p.1.isEmpty then none
    else some ((digitsVal p.1 : ℚ) / (10 : ℚ) ^ p.1.length, p.2)
  | other => some (0, other)

/-- Exponent part of a JSON number, returned as the multiplier `10 ^ e`. -/
def parseExp : List Char → Option (ℚ × List Char)
  | [] => some (1, [])
  | c :: r =>
    if c = 'e' ∨ c = 'E' then
      let sr : Bool × List Char :=
        match r with
        | '+' :: rr => (false, rr)
        | '-' :: rr => (true, rr)
        | _ => (false, r)
      let p := takeDigits sr.2
      if p.1.isEmpty then none
      else some (if sr.1 then ((10 : ℚ) ^ digitsVal p.1)⁻¹ else (10 : ℚ) ^ digitsVal p.1, p.2)
    else some (1, c :: r)

/-- A JSON number: optional minus, integer part without leading zeros,
optional fraction, optional exponent. -/
def parseNumber (input : List Char) : Option (ℚ × List Char) :=
  let sp : Bool × List Char :=
    match input with
    | '-' :: r => (true, r)
    | _ => (false, input)
  let ip := takeDigits sp.2
  if ip.1.isEmpty then none
  else if ip.1.length ≥ 2 && (ip.1.headD '0' == '0') then none
  else
    match parseFrac ip.2 with
    | none => none
    | some (fv, s3) =>
      match parseExp s3 with
      | none => none
      | some (mult, s4) =>
        let mag : ℚ := ((digitsVal ip.1 : ℚ) + fv) * mult
        some (if sp.1 then -mag else mag, s4)

/-- Parsing mode: a single value, the members of an object after `\x7b`, or
the elements of an array after `[` (accumulators in reverse order). -/
inductive PMode where
  | value : PMode
  | members (acc : List (String × Json)) : PMode
  | elements (acc : List Json) : PMode

/-- Recursive-descent JSON parser.  Structural recursion on `fuel`; each unit
of fuel spent is matched by at least one consumed input character, so
`input.length + 2` fuel suffices at top level. -/
def parseCore : Nat → PMode → List Char → Option (Json × List Char)
  | 0, _, _ => none
  | fuel + 1, PMode.value, input =>
    match skipWs input with
    | [] => none
    | c :: rest =>
      if c = '"' then
        match parseStringBody (rest.length + 1) [] rest with
        | some (s, r) => some (Json.str s, r)
        | none => none
      else if c = '\x7b' then
        match skipWs rest with
        | '\x7d' :: r2 => some (Json.obj [], r2)
        | r2 => parseCore fuel (PMode.members []) r2
      else if c = '[' then
        match skipWs rest with
        | ']' :: r2 => some (Json.arr [], r2)
        | r2 => parseCore fuel (PMode.elements []) r2
      else if c = 't' then
        match rest with
        | 'r' :: 'u' :: 'e' :: r => some (Json.bool true, r)
        | _ => none
      else if c = 'f' then
        match rest with
        | 'a' :: 'l' :: 's' :: 'e' :: r => some (Json.bool false, r)
        | _ => none
      else if c = 'n' then
        match rest with
        | 'u' :: 'l' :: 'l' :: r => some (Json.null, r)
        | _ => none
      else
        match parseNumber (c :: rest) with
        | some (q, r) => some (Json.num q, r)
        | none => none
  | fuel + 1, PMode.members acc, input =>
    match skipWs input with
    | '"' :: rest =>
      match parseStringBody (rest.length + 1) [] rest with
      | none => none
      | some (key, r1) =>
        match skipWs r1 with
        | ':' :: r2 =>
          match parseCore fuel PMode.value r2 with
          | none => none
          | some (v, r3) =>
            match skipWs r3 with
            | ',' :: r4 => parseCore fuel (PMode.members ((key, v) :: acc)) r4
            | '\x7d' :: r4 => some (Json.obj ((key, v) :: acc).reverse, r4)
            | _ => none
        | _ => none
    | _ => none
  | fuel + 1, PMode.elements acc, input =>
    match parseCore fuel PMode.value input with
    | none => none
    | some (v, r1) =>
      match skipWs r1 with
      | ',' :: r2 => parseCore fuel (PMode.elements (v :: acc)) r2
      | ']' :: r2 => some (Json.arr (v :: acc).reverse, r2)
      | _ => none

/-- `JSON.parse`: parse one value, allow surrounding whitespace, require the
whole input to be consumed; `none` models a thrown `SyntaxError`. -/
def parseJson (s : String) : Option Json :=
  match parseCore (s.length + 2) PMode.value s.data with
  | some (j, rest) => if (skipWs rest).isEmpty then some j else none
  | none => none

/-- The ECMAScript WhiteSpace and LineTerminator code points stripped by
String.prototype.trim: TAB, LF, VT, FF, CR, SPACE, NBSP, OGHAM SPACE MARK,
the EN QUAD..HAIR SPACE range, LINE and PARAGRAPH SEPARATOR, NARROW NBSP,
MEDIUM MATHEMATICAL SPACE, IDEOGRAPHIC SPACE and the BOM.  Strictly larger
than the JSON whitespace set isWsChar used by the parser. -/
def jsWsChar (c : Char) : Bool :=
  c.toNat == 0x09 || c.toNat == 0x0a || c.toNat == 0x0b || c.toNat == 0x0c ||
  c.toNat == 0x0d || c.toNat == 0x20 || c.toNat == 0xa0 || c.toNat == 0x1680 ||
  (0x2000 ≤ c.toNat && c.toNat ≤ 0x200a) || c.toNat == 0x2028 ||
  c.toNat == 0x2029 || c.toNat == 0x202f || c.toNat == 0x205f ||
  c.toNat == 0x3000 || c.toNat == 0xfeff

/-- JavaScript String.prototype.trim: strip leading and trailing
ECMAScript whitespace. -/
def jsTrim (s : String) : String :=
  String.mk (((s.data.dropWhile jsWsChar).reverse.dropWhile jsWsChar).reverse)

/-- JavaScript String.prototype.startsWith. -/
def jsStartsWith (s pat : String) : Bool :=
  pat.data.isPrefixOf s.data

/-- JavaScript String.prototype.endsWith. -/
def jsEndsWith (s pat : String) : Bool :=
  pat.data.isSuffixOf s.data

/-- JavaScript property access `j[k]` on a parsed JSON value: `none` models
`undefined`; on objects the last binding of a duplicated key wins. -/
def jsonField : Json → String → Option Json
  | Json.obj fields, k => fields.foldl (fun acc p => if p.1 = k then some p.2 else acc) none
  | _, _ => none

/-- JavaScript truthiness of a parsed JSON value. -/
def jsTruthy : Json → Bool
  | Json.null => false
  | Json.bool b => b
  | Json.num q => !(q == 0)
  | Json.str s => !(s == "")
  | Json.arr _ => true
  | Json.obj _ => true

/-- Truthiness of `j.k`, with `undefined` (absent field) falsy. -/
def fieldTruthy (j : Json) (k : String) : Bool :=
  match jsonField j k with
  | none => false
  | some v => jsTruthy v

/-- The Response Normalizer's failure taxonomy: a `JSON.parse` `SyntaxError`
(the spec's `MalformedResponseKind`), or the `"Invalid response structure"`
`Error` thrown when a strictly parsed value lacks a truthy title or summary. -/
inductive NormError where
  | malformedResponse : NormError
  | invalidStructure : NormError
deriving DecidableEq

/-- Response Normalizer of the full-synthesis path (`processStudyContent`,
lines 336–346): strict parse, then the truthy-title/summary check; on any
thrown error, if the trimmed text starts with `\x7b` and does not end with
`\x7d`, append one `\x7d` and re-parse once, returning that parse's value
without further validation; otherwise re-throw. -/
def normalizeStudy (text : String) : Except NormError Json :=
  let strict : Except NormError Json :=
    match parseJson text with
    | none => Except.error NormError.malformedResponse
    | some j =>
      if !fieldTruthy j "title" || !fieldTruthy j "summary" then
        Except.error NormError.invalidStructure
      else Except.ok j
  match strict with
  | Except.ok j => Except.ok j
  | Except.error e =>
    if jsStartsWith (jsTrim text) "\x7b" && !jsEndsWith (jsTrim text) "\x7d" then
      match parseJson (jsTrim text ++ "\x7d") with
      | some j => Except.ok j
      | none => Except.error NormError.malformedResponse
    else Except.error e

/-- Response Normalizer of the list-returning paths (`extendQuiz` lines
399–407, and the analogous blocks of `generateQuestionForFailure` and
`generateAdditionalFlashcards`): strict parse with no field validation; on
failure, if the trimmed text starts with `[` and does not end with `]`,
append one `]` and re-parse once. -/
def normalizeQuizList (text : String) : Except NormError Json :=
  match parseJson text with
  | some j => Except.ok j
  | none =>
    if jsStartsWith (jsTrim text) "[" && !jsEndsWith (jsTrim text) "]" then
      match parseJson (jsTrim text ++ "]") with
      | some j => Except.ok j
      | none => Except.error NormError.malformedResponse
    else Except.error NormError.malformedResponse
/-- The DOMAIN_INSTRUCTIONS entry for the PA domain. -/
def PA_INSTRUCTION : String :=
  "You are a Senior PA School Professor. YOUR ROLE: Generate COMPREHENSIVE and highly descriptive structured study guides.\n  \nMANDATORY FORMATTING RULES:\n1. ALWAYS start with \"Big Picture Question:\" followed by a clear question\n2. ALWAYS include \"Key Concepts & Definitions:\" section with term | definition format\n3. ALWAYS include a \"Comparison Table:\" using | delimiters when contrasting concepts\n4. ALWAYS include \"Test Yourself:\" section with 2-3 practice questions\n5. ALWAYS include \"Common Misconception:\" section identifying frequent errors\n6. Use section headers EXACTLY as written above - these enable student app parsing\n\nCONTENT PRINCIPLES:\n- Be extremely detailed and descriptive in your explanations\n- Focus on PANCE board-style reasoning\n- Emphasize differential diagnosis and clinical decision-making\n- Connect pathophysiology to patient presentation\n- Highlight high-yield, commonly tested concepts"

/-- The DOMAIN_INSTRUCTIONS entry for the Nursing domain. -/
def NURSING_INSTRUCTION : String :=
  "You are a Nursing Education Expert. YOUR ROLE: Generate COMPREHENSIVE and highly descriptive structured study guides.\n\nMANDATORY FORMATTING RULES:\n1. ALWAYS start with \"Big Picture Question:\" followed by a clear question about nursing care\n2. ALWAYS include \"Key Concepts & Definitions:\" with term | definition format\n3. ALWAYS include a \"Comparison Table:\" using | delimiters (Assessment | Nursing Diagnosis or similar)\n4. ALWAYS include \"Test Yourself:\" section with 2-3 NCLEX-style scenarios\n5. ALWAYS include \"Common Misconception:\" section addressing nursing judgment errors\n6. Use section headers EXACTLY as written - these enable student app parsing\n\nCONTENT PRINCIPLES:\n- Be extremely detailed in your nursing judgment explanations\n- Focus on patient safety and priority assessment findings\n- Connect clinical findings to nursing diagnoses\n- Organize by ADPIE framework where applicable"

/-- The DOMAIN_INSTRUCTIONS entry for the Medical domain. -/
def MEDICAL_INSTRUCTION : String :=
  "You are a Medical School Professor. YOUR ROLE: Generate COMPREHENSIVE and highly descriptive structured study guides.\n\nMANDATORY FORMATTING RULES:\n1. ALWAYS start with \"Big Picture Question:\" followed by a mechanistic question\n2. ALWAYS include \"Key Concepts & Definitions:\" with term | definition format\n3. ALWAYS include a \"Comparison Table:\" using | delimiters (Feature | Condition A | Condition B)\n4. ALWAYS include \"Test Yourself:\" section with 2-3 USMLE-style questions\n5. ALWAYS include \"Common Misconception:\" section addressing mechanism misunderstandings\n6. Use section headers EXACTLY as written - these enable student app parsing\n\nCONTENT PRINCIPLES:\n- Focus on deep, detailed pathophysiologic understanding\n- Emphasize mechanism over memorization\n- Connect all concepts to real patient scenarios\n- Highlight commonly tested board concepts"

/-- The DOMAIN_INSTRUCTIONS entry for the GenEd domain. -/
def GENED_INSTRUCTION : String :=
  "You are an expert educator. YOUR ROLE: Generate COMPREHENSIVE and highly descriptive structured study guides.\n\nMANDATORY FORMATTING RULES:\n1. ALWAYS start with \"Big Picture Question:\" followed by a framing question\n2. ALWAYS include \"Key Concepts & Definitions:\" with term | definition format\n3. ALWAYS include a \"Comparison Table:\" using | delimiters contrasting related concepts\n4. ALWAYS include \"Test Yourself:\" section with 2-3 concept-check questions\n5. ALWAYS include \"Common Misconception:\" section addressing typical student errors\n6. Use section headers EXACTLY as written - these enable student app parsing\n\nCONTENT PRINCIPLES:\n- Provide rich, detailed context for all topics\n- Use analogies and clear examples to explain complex ideas\n- Connect concepts to real-world applications\n- Encourage deep understanding and application"


/-- The record DOMAIN_INSTRUCTIONS, as key/value pairs in source order. -/
def DOMAIN_INSTRUCTIONS : List (String × String) :=
  [("PA", PA_INSTRUCTION),
   ("Nursing", NURSING_INSTRUCTION),
   ("Medical", MEDICAL_INSTRUCTION),
   ("GenEd", GENED_INSTRUCTION)]

/-- JavaScript property lookup on DOMAIN_INSTRUCTIONS: the instruction
selected for a runtime domain string, with none modelling undefined. -/
def domainInstruction (domain : String) : Option String :=
  DOMAIN_INSTRUCTIONS.lookup domain

/-- DEFAULT_SYSTEM_INSTRUCTION, the PA entry of DOMAIN_INSTRUCTIONS. -/
def DEFAULT_SYSTEM_INSTRUCTION : String := PA_INSTRUCTION

/-- FALLBACK_STUDY_MATERIAL, the object literal of lines 74-88, as the JSON
value the façade hands to its caller when generation fails. -/
def FALLBACK_STUDY_MATERIAL : Json :=
  Json.obj
    [("title", Json.str "Study Material"),
     ("summary",
      Json.str "Unable to generate AI content. Please try again or adjust your input."),
     ("flashcards",
      Json.arr
        [Json.obj
          [("question", Json.str "What key concepts did you learn?"),
           ("answer", Json.str "Review your notes for important topics.")]]),
     ("quiz",
      Json.arr
        [Json.obj
          [("question", Json.str "Which area do you need to study more?"),
           ("options",
            Json.arr
              [Json.str "Pathophysiology", Json.str "Pharmacology",
               Json.str "Diagnosis", Json.str "Management"]),
           ("correctAnswer", Json.num 0),
           ("explanation", Json.str "Focus on weak areas first.")]])]

/-- A JavaScript error value as observed by retryWithBackoff: an optional
numeric status, an optional message string, and a payload number standing
for all its other own properties, so that two errors agreeing on status and
message can still be distinguished (needed to state that errors propagate
verbatim). -/
structure JsError where
  status : Option Int
  message : Option String
  payload : Nat
deriving DecidableEq

/-- JavaScript String.prototype.includes: case-sensitive substring test. -/
def strIncludes (s pat : String) : Bool :=
  decide (pat.data <:+: s.data)

/-- The retry classification of lines 258-263: status 503 or 429, or the
message contains one of the three magic substrings; an absent message makes
the optional-chaining terms undefined, hence falsy. -/
def isRetryable (e : JsError) : Bool :=
  e.status == some 503 || e.status == some 429 ||
  (match e.message with
   | some m =>
     strIncludes m "overloaded" || strIncludes m "UNAVAILABLE" ||
     strIncludes m "fetch failed"
   | none => false)

/-- The ApiKeyManager state: the filtered key list fixed at construction and
the mutable round-robin cursor, initially 0. -/
structure ApiKeyManager where
  keys : List String
  currentIndex : Nat
deriving DecidableEq

/-- getNextKey (lines 228-233): empty pool returns the empty string and
leaves the state alone; otherwise return the key under the cursor and
advance the cursor modulo the pool size.  The getD default is never read:
the cursor stays in bounds (see the key-cursor invariant theorem). -/
def getNextKey (m : ApiKeyManager) : String × ApiKeyManager :=
  if m.keys.length = 0 then ("", m)
  else
    (m.keys.getD m.currentIndex "",
     { keys := m.keys, currentIndex := (m.currentIndex + 1) % m.keys.length })

/-- State of the key manager after k successive getNextKey calls. -/
def advanceKeys : ApiKeyManager → Nat → ApiKeyManager
  | m, 0 => m
  | m, k + 1 => advanceKeys (getNextKey m).2 k

/-- The credential handed out by the k-th getNextKey call (1-indexed) after
construction with the given state. -/
def nthKey (m : ApiKeyManager) (k : Nat) : String :=
  (getNextKey (advanceKeys m (k - 1))).1

/-- The backoff delay computed on line 270-272 for a given attempt index,
where rand is the Math.random() draw for that attempt. -/
def attemptDelay (initialDelayMs rand : ℚ) (attempt : Nat) : ℚ :=
  initialDelayMs * 2 ^ attempt + rand * 1000

/-- Observable outcome of one retryWithBackoff invocation: the returned
value or thrown error (error none models the JavaScript undefined thrown
when the loop never ran), the key-manager state left behind, the number of
getNextKey calls, the number of operation invocations, and the sequence of
delays slept. -/
structure RetryResult (α : Type) where
  result : Except (Option JsError) α
  mgr : ApiKeyManager
  keyRequests : Nat
  invocations : Nat
  delays : List ℚ

/-- The loop body of retryWithBackoff (lines 250-278).  remaining counts the
iterations still allowed, so the loop guard attempt < maxRetries of the
source corresponds to remaining > 0 with remaining = maxRetries - attempt;
the operation fn may depend on the attempt index and the credential. -/
def retryAux {α : Type} (fn : Nat → String → Except JsError α) (maxRetries : Nat)
    (initialDelayMs : ℚ) (rand : Nat → ℚ) :
    Nat → Nat → Option JsError → ApiKeyManager → RetryResult α
  | 0, _, lastError, mgr =>
    { result := Except.error lastError, mgr := mgr,
      keyRequests := 0, invocations := 0, delays := [] }
  | rem + 1, attempt, _lastError, mgr =>
    let p := getNextKey mgr
    match fn attempt p.1 with
    | Except.ok v =>
      { result := Except.ok v, mgr := p.2,
        keyRequests := 1, invocations := 1, delays := [] }
    | Except.error e =>
      if !isRetryable e || attempt == maxRetries - 1 then
        { result := Except.error (some e), mgr := p.2,
          keyRequests := 1, invocations := 1, delays := [] }
      else
        let rest := retryAux fn maxRetries initialDelayMs rand rem (attempt + 1) (some e) p.2
        { result := rest.result, mgr := rest.mgr,
          keyRequests := rest.keyRequests + 1,
          invocations := rest.invocations + 1,
          delays := attemptDelay initialDelayMs (rand attempt) attempt :: rest.delays }

/-- retryWithBackoff (lines 243-281), with the ambient Math.random modelled
as the per-attempt draw sequence rand and the singleton keyManager passed
explicitly. -/
def retryWithBackoff {α : Type} (fn : Nat → String → Except JsError α)
    (maxRetries : Nat) (initialDelayMs : ℚ) (rand : Nat → ℚ)
    (mgr : ApiKeyManager) : RetryResult α :=
  retryAux fn maxRetries initialDelayMs rand maxRetries 0 none mgr

/-- The SyntaxError thrown by JSON.parse, as seen by the retry classifier.
The concrete V8 message text is abstracted; like the real messages, it
contains none of the three retryable substrings. -/
def syntaxErrorJs : JsError :=
  { status := none, message := some "Unexpected token in JSON", payload := 0 }

/-- The Error thrown on line 338 when a parsed value lacks a truthy title or
summary. -/
def invalidStructureJs : JsError :=
  { status := none, message := some "Invalid response structure", payload := 0 }

def normErrorToJs : NormError → JsError
  | NormError.malformedResponse => syntaxErrorJs
  | NormError.invalidStructure => invalidStructureJs

/-- One attempt of processStudyContent (the async closure of lines 309-346):
perform the remote generateContent call, substitute the empty object text
for a falsy response.text, then normalize; normalizer failures surface as
the corresponding thrown JavaScript errors. -/
def studyAttempt (remote : Nat → String → Except JsError String)
    (attempt : Nat) (apiKey : String) : Except JsError Json :=
  match remote attempt apiKey with
  | Except.error e => Except.error e
  | Except.ok t =>
    let text := if t == "" then "\x7b\x7d" else t
    match normalizeStudy text with
    | Except.ok j => Except.ok j
    | Except.error e => Except.error (normErrorToJs e)

/-- processStudyContent (lines 285-352): select the system instruction for
the runtime domain string, run the attempt under retryWithBackoff with the
default maxRetries 5 and initialDelayMs 2000, and absorb any propagated
error into FALLBACK_STUDY_MATERIAL.  The remote collaborator receives the
selected instruction (none when the domain is unrecognized). -/
def processStudyContent
    (remote : Option String → Nat → String → Except JsError String)
    (domain : String) (rand : Nat → ℚ) (mgr : ApiKeyManager) : Json :=
  let systemInstruction := domainInstruction domain
  let r := retryWithBackoff (studyAttempt (remote systemInstruction)) 5 2000 rand mgr
  match r.result with
  | Except.ok j => j
  | Except.error _ => FALLBACK_STUDY_MATERIAL

/-- Fixture: an operation failing with a retryable 503 error on the first
two attempts and succeeding on the third. -/
def fnW1 : Nat → String → Except JsError Nat := fun i _ =>
  if i < 2 then Except.error { status := some 503, message := none, payload := 0 }
  else Except.ok 42

/-- Fixture: a fixed non-retryable error with a distinguishing payload. -/
def errW3 : Nat → String → JsError := fun _ _ =>
  { status := some 400, message := some "Bad Request", payload := 7 }

def fnW3 : Nat → String → Except JsError Nat := fun i key => Except.error (errW3 i key)

/-- Fixture: a fixed retryable rate-limit error with a payload. -/
def errW3r : Nat → String → JsError := fun _ _ =>
  { status := some 429, message := none, payload := 11 }

def fnW3r : Nat → String → Except JsError Nat := fun i key => Except.error (errW3r i key)

/-- Fixture: an operation failing retryably on the first attempt only. -/
def fnW4 : Nat → String → Except JsError Nat := fun i _ =>
  if i = 0 then Except.error { status := some 503, message := none, payload := 0 }
  else Except.ok 7

def mgrW : ApiKeyManager := { keys := ["key-a", "key-b"], currentIndex := 0 }

/-- Fixture: a remote call that always fails with a non-retryable server
error. -/
def remoteW6 : Option String → Nat → String → Except JsError String :=
  fun _ _ _ =>
    Except.error { status := some 500, message := some "Internal Server Error", payload := 1 }

lemma getNextKey_keys (m : ApiKeyManager) : (getNextKey m).2.keys = m.keys := by
  unfold getNextKey
  split <;> rfl

lemma getNextKey_empty (m : ApiKeyManager) (h : m.keys = []) : getNextKey m = ("", m) := by
  unfold getNextKey
  simp [h]

lemma advanceKeys_empty (m : ApiKeyManager) (h : m.keys = []) :
    ∀ k, advanceKeys m k = m := by
  intro k
  induction k with
  | zero => rfl
  | succ k ih =>
    show advanceKeys (getNextKey m).2 k = m
    rw [getNextKey_empty m h]
    exact ih

lemma advanceKeys_state (keys : List String) (h : keys.length ≠ 0) :
    ∀ (k i : Nat),
      advanceKeys { keys := keys, currentIndex := i % keys.length } k =
        { keys := keys, currentIndex := (i + k) % keys.length } := by
  intro k
  induction k with
  | zero => intro i; simp [advanceKeys]
  | succ k ih =>
    intro i
    show advanceKeys (getNextKey { keys := keys, currentIndex := i % keys.length }).2 k = _
    have hg : (getNextKey { keys := keys, currentIndex := i % keys.length }).2 =
        { keys := keys, currentIndex := (i + 1) % keys.length } := by
      unfold getNextKey
      simp [h, Nat.mod_add_mod]
    rw [hg, ih (i + 1)]
    have e : i + 1 + k = i + (k + 1) := by omega
    rw [e]

lemma retryAux_allfail {α : Type} (fn : Nat → String → Except JsError α)
    (maxRetries : Nat) (base : ℚ) (rand : Nat → ℚ)
    (h : ∀ i key, ∃ e, fn i key = Except.error e) :
    ∀ (rem attempt : Nat) (lastE : Option JsError) (mgr : ApiKeyManager),
      ∃ eo, (retryAux fn maxRetries base rand rem attempt lastE mgr).result =
        Except.error eo := by
  intro rem
  induction rem with
  | zero => intro attempt lastE mgr; exact ⟨lastE, rfl⟩
  | succ rem ih =>
    intro attempt lastE mgr
    obtain ⟨e, he⟩ := h attempt (getNextKey mgr).1
    cases hc : (!isRetryable e || attempt == maxRetries - 1) with
    | true =>
      refine ⟨some e, ?_⟩
      simp only [retryAux, he, hc, if_true]
    | false =>
      obtain ⟨eo, h2⟩ := ih (attempt + 1) (some e) (getNextKey mgr).2
      refine ⟨eo, ?_⟩
      simp only [retryAux, he, hc, if_false]
      exact h2

lemma retryAux_success {α : Type} (fn : Nat → String → Except JsError α)
    (maxRetries m : Nat) (base : ℚ) (rand : Nat → ℚ) (v : α)
    (hm : 1 ≤ m) (hmax : m ≤ maxRetries)
    (hfail : ∀ i, i < m - 1 → ∀ key, ∃ e, fn i key = Except.error e ∧ isRetryable e = true)
    (hsucc : ∀ key, fn (m - 1) key = Except.ok v) :
    ∀ (d attempt : Nat), attempt + d = m - 1 →
      ∀ (lastE : Option JsError) (mgr : ApiKeyManager),
        (retryAux fn maxRetries base rand (maxRetries - attempt) attempt lastE mgr).result =
          Except.ok v ∧
        (retryAux fn maxRetries base rand (maxRetries - attempt) attempt lastE
            mgr).keyRequests = d + 1 := by
  intro d
  induction d with
  | zero =>
    intro attempt ha lastE mgr
    have hat : attempt = m - 1 := by omega
    have hrem : maxRetries - attempt = (maxRetries - attempt - 1) + 1 := by omega
    rw [hrem]
    subst hat
    constructor
    · simp only [retryAux, hsucc]
    · simp only [retryAux, hsucc]
  | succ d ih =>
    intro attempt ha lastE mgr
    obtain ⟨e, he, hret⟩ := hfail attempt (by omega) (getNextKey mgr).1
    have hrem : maxRetries - attempt = (maxRetries - (attempt + 1)) + 1 := by omega
    have hcond : (!isRetryable e || attempt == maxRetries - 1) = false := by
      simp [hret, beq_eq_false_iff_ne]
      omega
    rw [hrem]
    have hih := ih (attempt + 1) (by omega) (some e) (getNextKey mgr).2
    have h1 := hih.1
    have h2 := hih.2
    constructor
    · simp only [retryAux, he, hcond]
      simp only [Bool.false_eq_true, if_false]
      exact h1
    · simp only [retryAux, he, hcond]
      simp only [Bool.false_eq_true, if_false]
      omega

lemma retryAux_exhaust {α : Type} (fn : Nat → String → Except JsError α)
    (err : Nat → String → JsError) (maxRetries : Nat) (base : ℚ) (rand : Nat → ℚ)
    (hmr : 1 ≤ maxRetries)
    (hfn : ∀ i key, fn i key = Except.error (err i key))
    (hret : ∀ i key, isRetryable (err i key) = true) :
    ∀ (d attempt : Nat), attempt + d = maxRetries - 1 →
      ∀ (lastE : Option JsError) (mgr : ApiKeyManager),
        (retryAux fn maxRetries base rand (maxRetries - attempt) attempt lastE
            mgr).result =
          Except.error (some (err (maxRetries - 1)
            (getNextKey (advanceKeys mgr d)).1)) := by
  intro d
  induction d with
  | zero =>
    intro attempt ha lastE mgr
    have hat : attempt = maxRetries - 1 := by omega
    have hrem : maxRetries - attempt = (maxRetries - attempt - 1) + 1 := by omega
    rw [hrem]
    subst hat
    have hcond : (!isRetryable (err (maxRetries - 1) (getNextKey mgr).1) ||
        (maxRetries - 1) == maxRetries - 1) = true := by simp
    simp only [retryAux, hfn, hcond, if_true, advanceKeys]
  | succ d ih =>
    intro attempt ha lastE mgr
    have hrem : maxRetries - attempt = (maxRetries - (attempt + 1)) + 1 := by omega
    have hcond : (!isRetryable (err attempt (getNextKey mgr).1) ||
        attempt == maxRetries - 1) = false := by
      simp [hret, beq_eq_false_iff_ne]
      omega
    rw [hrem]
    simp only [retryAux, hfn, hcond, Bool.false_eq_true, if_false, advanceKeys]
    exact ih (attempt + 1) (by omega) (some (err attempt (getNextKey mgr).1))
      (getNextKey mgr).2

lemma retryAux_delays_getD {α : Type} (fn : Nat → String → Except JsError α)
    (maxRetries : Nat) (base : ℚ) (rand : Nat → ℚ) :
    ∀ (rem attempt : Nat) (lastE : Option JsError) (mgr : ApiKeyManager) (j : Nat),
      j < (retryAux fn maxRetries base rand rem attempt lastE mgr).delays.length →
      (retryAux fn maxRetries base rand rem attempt lastE mgr).delays.getD j 0 =
        attemptDelay base (rand (attempt + j)) (attempt + j) := by
  intro rem
  induction rem with
  | zero => intro attempt lastE mgr j hj; simp [retryAux] at hj
  | succ rem ih =>
    intro attempt lastE mgr j hj
    simp only [retryAux] at hj ⊢
    cases hf : fn attempt (getNextKey mgr).1 with
    | ok v => simp only [hf] at hj; simp at hj
    | error e =>
      simp only [hf] at hj ⊢
      cases hc : (!isRetryable e || attempt == maxRetries - 1) with
      | true =>
        simp only [hc, if_true] at hj
        simp at hj
      | false =>
        simp only [hc, Bool.false_eq_true, if_false] at hj ⊢
        cases j with
        | zero => simp
        | succ j =>
          simp only [List.getD_cons_succ]
          simp only [List.length_cons, Nat.succ_lt_succ_iff] at hj
          rw [show attempt + (j + 1) = attempt + 1 + j from by omega]
          exact ih (attempt + 1) (some e) (getNextKey mgr).2 j hj

/-- C2: retryWithBackoff classifies an error as retryable if and only if its
status is 503 or 429, or its message contains "overloaded", "UNAVAILABLE" or
"fetch failed" as a case-sensitive substring; every other error is
non-retryable. -/
theorem retryable_classification (e : JsError) :
    isRetryable e = true ↔
      e.status = some 503 ∨ e.status = some 429 ∨
      ∃ m, e.message = some m ∧
        ("overloaded".data <:+: m.data ∨ "UNAVAILABLE".data <:+: m.data ∨
         "fetch failed".data <:+: m.data) := by
  obtain ⟨st, msg, pl⟩ := e
  cases msg with
  | none => simp [isRetryable, strIncludes]
  | some m => simp [isRetryable, strIncludes, or_assoc]

/-- C5: starting from a freshly constructed key manager, the k-th getNextKey
call returns the key at position (k-1) mod n of a pool of size n ≥ 1, and on
an empty pool every call returns the empty string (and the model is total,
so no exception is possible). -/
theorem key_rotation_round_robin :
    (∀ (keys : List String) (k : Nat), keys ≠ [] → 1 ≤ k →
      nthKey { keys := keys, currentIndex := 0 } k =
        keys.getD ((k - 1) % keys.length) "") ∧
    (∀ k : Nat, nthKey { keys := [], currentIndex := 0 } k = "") := by
  constructor
  · intro keys k hne _hk
    have hn : keys.length ≠ 0 := by simpa using hne
    have hs := advanceKeys_state keys hn (k - 1) 0
    rw [Nat.zero_mod, Nat.zero_add] at hs
    unfold nthKey
    rw [hs]
    unfold getNextKey
    simp [hn]
  · intro k
    unfold nthKey
    rw [advanceKeys_empty _ rfl (k - 1)]
    rfl

/-- C5 witness: in a three-key pool the fifth call hands out the key at
index (5-1) mod 3 = 1. -/
theorem key_rotation_round_robin_witness :
    nthKey { keys := ["a", "b", "c"], currentIndex := 0 } 5 =
      ["a", "b", "c"].getD ((5 - 1) % ["a", "b", "c"].length) "" :=
  key_rotation_round_robin.1 ["a", "b", "c"] 5 (by simp) (by omega)

/-- C10: after any number of getNextKey calls from construction, the key
list is unchanged and the cursor is strictly below the pool size when the
pool is non-empty, and exactly 0 when the pool is empty, so the read
keys[currentIndex] is always in bounds. -/
theorem key_cursor_invariant (keys : List String) (k : Nat) :
    (advanceKeys { keys := keys, currentIndex := 0 } k).keys = keys ∧
    (if keys.length = 0
     then (advanceKeys { keys := keys, currentIndex := 0 } k).currentIndex = 0
     else (advanceKeys { keys := keys, currentIndex := 0 } k).currentIndex <
       keys.length) := by
  by_cases h : keys.length = 0
  · have hk : keys = [] := by simpa using h
    subst hk
    rw [advanceKeys_empty _ rfl k]
    simp
  · have hs := advanceKeys_state keys h k 0
    rw [Nat.zero_mod, Nat.zero_add] at hs
    rw [hs]
    refine ⟨rfl, ?_⟩
    simp only [h, if_false]
    exact Nat.mod_lt _ (by omega)

/-- C7: when the strict parse fails and the trimmed text starts with an
opening brace (resp. bracket) but does not end with the matching closing
one, the normalizer appends exactly one closing delimiter and re-parses
exactly once; the truncated object missing only its closing brace parses
identically to its well-formed counterpart — also when followed by
JS-only whitespace such as a vertical tab, which trim strips — while the
input missing two or more structural tokens fails with the
malformed-response error. -/
theorem json_single_delimiter_repair :
    (∀ text : String, parseJson text = none →
      jsStartsWith (jsTrim text) "\x7b" = true →
      jsEndsWith (jsTrim text) "\x7d" = false →
      normalizeStudy text =
        match parseJson (jsTrim text ++ "\x7d") with
        | some j => Except.ok j
        | none => Except.error NormError.malformedResponse) ∧
    (∀ text : String, parseJson text = none →
      jsStartsWith (jsTrim text) "[" = true →
      jsEndsWith (jsTrim text) "]" = false →
      normalizeQuizList text =
        match parseJson (jsTrim text ++ "]") with
        | some j => Except.ok j
        | none => Except.error NormError.malformedResponse) ∧
    normalizeStudy "\x7b\"title\":\"T\",\"summary\":\"S\"" =
      normalizeStudy "\x7b\"title\":\"T\",\"summary\":\"S\"\x7d" ∧
    normalizeStudy "\x7b\"title\":\"T\",\"summary\":\"S\"\x0b" =
      normalizeStudy "\x7b\"title\":\"T\",\"summary\":\"S\"\x7d" ∧
    normalizeStudy "\x7b\"title\":\"T\",\"summary\":\"S\"\x7d" =
      Except.ok (Json.obj [("title", Json.str "T"), ("summary", Json.str "S")]) ∧
    normalizeStudy "\x7b\"title\":\"T" = Except.error NormError.malformedResponse := by
  refine ⟨?_, ?_, rfl, rfl, rfl, rfl⟩
  · intro text h hs he
    simp [normalizeStudy, h, hs, he]
  · intro text h hs he
    simp [normalizeQuizList, h, hs, he]

/-- C7 witness: a truncated one-element list is repaired by appending the
single missing bracket and re-parsing once. -/
theorem json_single_delimiter_repair_witness :
    normalizeQuizList "[true" = Except.ok (Json.arr [Json.bool true]) :=
  (json_single_delimiter_repair.2.1 "[true" rfl rfl rfl).trans rfl

/-- C8 counterexample: a repaired parse whose value has no title at all is
returned as a success by the normalizer instead of failing with the
malformed-response error, contradicting the claim that repaired values
lacking a non-empty title or summary are rejected. -/
theorem repair_skips_field_validation_cex :
    normalizeStudy "\x7b\"summary\":\"S\"" =
      Except.ok (Json.obj [("summary", Json.str "S")]) ∧
    fieldTruthy (Json.obj [("summary", Json.str "S")]) "title" = false ∧
    normalizeStudy "\x7b\"summary\":\"S\"" ≠
      Except.error NormError.malformedResponse := by
  have e1 : normalizeStudy "\x7b\"summary\":\"S\"" =
      Except.ok (Json.obj [("summary", Json.str "S")]) := rfl
  exact ⟨e1, rfl, fun h => Except.noConfusion (e1.symm.trans h)⟩

/-- C8 amended: a value parsed only after the single-delimiter repair is
returned without any title or summary validation; the non-empty-field check
of line 338 applies exclusively to the strict-parse path. -/
theorem repaired_value_returned_unvalidated (text : String) (j : Json)
    (hp : parseJson text = none)
    (hs : jsStartsWith (jsTrim text) "\x7b" = true)
    (he : jsEndsWith (jsTrim text) "\x7d" = false)
    (hr : parseJson (jsTrim text ++ "\x7d") = some j) :
    normalizeStudy text = Except.ok j := by
  simp [normalizeStudy, hp, hs, he, hr]

/-- C8 witness: a truncated object with neither title nor summary is
repaired and returned as-is. -/
theorem repaired_value_returned_unvalidated_witness :
    normalizeStudy "\x7b\"a\":\"b\"" = Except.ok (Json.obj [("a", Json.str "b")]) :=
  repaired_value_returned_unvalidated "\x7b\"a\":\"b\"" (Json.obj [("a", Json.str "b")])
    rfl rfl rfl rfl

/-- C9 counterexample: for the unrecognized runtime domain "Chemistry" the
instruction lookup yields undefined (none), not the default PA
instruction, contradicting the claim that unrecognized domains fall back to
the default instruction. -/
theorem unknown_domain_gets_no_instruction_cex :
    domainInstruction "Chemistry" = none ∧
    domainInstruction "Chemistry" ≠ some DEFAULT_SYSTEM_INSTRUCTION := by
  have h0 : domainInstruction "Chemistry" = none := rfl
  refine ⟨h0, ?_⟩
  rw [h0]
  simp

/-- C9 amended: an unrecognized domain selects no system instruction at all
(undefined is sent), while each of the four recognized domains selects its
own instruction, and those four instructions are pairwise distinct; the
selection itself is total, so no failure occurs. -/
theorem domain_instruction_selection :
    (∀ d : String, d ∉ ["PA", "Nursing", "Medical", "GenEd"] →
      domainInstruction d = none) ∧
    domainInstruction "PA" = some PA_INSTRUCTION ∧
    domainInstruction "Nursing" = some NURSING_INSTRUCTION ∧
    domainInstruction "Medical" = some MEDICAL_INSTRUCTION ∧
    domainInstruction "GenEd" = some GENED_INSTRUCTION ∧
    DEFAULT_SYSTEM_INSTRUCTION = PA_INSTRUCTION ∧
    PA_INSTRUCTION ≠ NURSING_INSTRUCTION ∧
    PA_INSTRUCTION ≠ MEDICAL_INSTRUCTION ∧
    PA_INSTRUCTION ≠ GENED_INSTRUCTION ∧
    NURSING_INSTRUCTION ≠ MEDICAL_INSTRUCTION ∧
    NURSING_INSTRUCTION ≠ GENED_INSTRUCTION ∧
    MEDICAL_INSTRUCTION ≠ GENED_INSTRUCTION := by
  refine ⟨?_, rfl, rfl, rfl, rfl, rfl, by decide, by decide, by decide, by decide,
    by decide, by decide⟩
  intro d hd
  simp only [List.mem_cons, List.not_mem_nil, or_false, not_or] at hd
  obtain ⟨h1, h2, h3, h4⟩ := hd
  have b1 : (d == "PA") = false := beq_eq_false_iff_ne.mpr h1
  have b2 : (d == "Nursing") = false := beq_eq_false_iff_ne.mpr h2
  have b3 : (d == "Medical") = false := beq_eq_false_iff_ne.mpr h3
  have b4 : (d == "GenEd") = false := beq_eq_false_iff_ne.mpr h4
  simp [domainInstruction, DOMAIN_INSTRUCTIONS, List.lookup, b1, b2, b3, b4]

/-- C9 witness: another unrecognized domain string also selects no
instruction. -/
theorem domain_instruction_selection_witness :
    domainInstruction "Astronomy" = none :=
  domain_instruction_selection.1 "Astronomy" (by decide)

/-- C1: an operation failing retryably on attempts 1..m-1 and succeeding on
attempt m, with m at most maxRetries, makes retryWithBackoff return the
success value with exactly m getNextKey credential requests (one per
attempt, including the successful one). -/
theorem backoff_success_after_m_attempts {α : Type}
    (fn : Nat → String → Except JsError α) (maxRetries m : Nat)
    (base : ℚ) (rand : Nat → ℚ) (mgr : ApiKeyManager) (v : α)
    (hm : 1 ≤ m) (hmax : m ≤ maxRetries)
    (hfail : ∀ i, i < m - 1 → ∀ key, ∃ e, fn i key = Except.error e ∧
      isRetryable e = true)
    (hsucc : ∀ key, fn (m - 1) key = Except.ok v) :
    (retryWithBackoff fn maxRetries base rand mgr).result = Except.ok v ∧
    (retryWithBackoff fn maxRetries base rand mgr).keyRequests = m := by
  have h := retryAux_success fn maxRetries m base rand v hm hmax hfail hsucc
    (m - 1) 0 (by omega) none mgr
  rw [Nat.sub_zero] at h
  unfold retryWithBackoff
  refine ⟨h.1, ?_⟩
  have h2 := h.2
  omega

/-- C1 witness: two retryable 503 failures then success on the third
attempt yields the value 42 after exactly three credential requests. -/
theorem backoff_success_after_m_attempts_witness :
    (retryWithBackoff fnW1 5 2000 (fun _ => 0) mgrW).result = Except.ok 42 ∧
    (retryWithBackoff fnW1 5 2000 (fun _ => 0) mgrW).keyRequests = 3 :=
  backoff_success_after_m_attempts fnW1 5 3 2000 (fun _ => 0) mgrW 42
    (by omega) (by omega)
    (fun i hi key =>
      ⟨{ status := some 503, message := none, payload := 0 },
        by
          have hi2 : i < 2 := by omega
          simp [fnW1, hi2],
        by decide⟩)
    (fun key => by simp [fnW1])

/-- C3: an operation that always fails non-retryably makes retryWithBackoff
throw after exactly one invocation with no delay, and the thrown error is
the operation's error value verbatim; on exhaustion of all maxRetries
attempts with retryable errors, the error thrown is the last attempt's
error verbatim. -/
theorem final_error_propagated_verbatim :
    (∀ (α : Type) (fn : Nat → String → Except JsError α)
        (err : Nat → String → JsError) (maxRetries : Nat) (base : ℚ)
        (rand : Nat → ℚ) (mgr : ApiKeyManager),
      1 ≤ maxRetries →
      (∀ i key, fn i key = Except.error (err i key)) →
      (∀ i key, isRetryable (err i key) = false) →
      (retryWithBackoff fn maxRetries base rand mgr).result =
          Except.error (some (err 0 (getNextKey mgr).1)) ∧
        (retryWithBackoff fn maxRetries base rand mgr).invocations = 1 ∧
        (retryWithBackoff fn maxRetries base rand mgr).delays = []) ∧
    (∀ (α : Type) (fn : Nat → String → Except JsError α)
        (err : Nat → String → JsError) (maxRetries : Nat) (base : ℚ)
        (rand : Nat → ℚ) (mgr : ApiKeyManager),
      1 ≤ maxRetries →
      (∀ i key, fn i key = Except.error (err i key)) →
      (∀ i key, isRetryable (err i key) = true) →
      (retryWithBackoff fn maxRetries base rand mgr).result =
        Except.error (some (err (maxRetries - 1)
          (getNextKey (advanceKeys mgr (maxRetries - 1))).1))) := by
  constructor
  · intro α fn err maxRetries base rand mgr hmr hfn hret
    obtain ⟨mr, rfl⟩ : ∃ mr, maxRetries = mr + 1 := ⟨maxRetries - 1, by omega⟩
    have hcond : (!isRetryable (err 0 (getNextKey mgr).1) ||
        (0 == mr + 1 - 1)) = true := by simp [hret]
    unfold retryWithBackoff
    refine ⟨?_, ?_, ?_⟩ <;> simp only [retryAux, hfn, hcond, if_true]
  · intro α fn err maxRetries base rand mgr hmr hfn hret
    have h := retryAux_exhaust fn err maxRetries base rand hmr hfn hret
      (maxRetries - 1) 0 (by omega) none mgr
    rw [Nat.sub_zero] at h
    unfold retryWithBackoff
    exact h

/-- C3 witness: a constant 400 error with payload 7 is thrown verbatim
after one invocation with no delay; a constant retryable 429 error with
payload 11 is thrown verbatim after all four attempts are exhausted. -/
theorem final_error_propagated_verbatim_witness :
    ((retryWithBackoff fnW3 5 2000 (fun _ => 0) mgrW).result =
        Except.error (some { status := some 400, message := some "Bad Request", payload := 7 }) ∧
      (retryWithBackoff fnW3 5 2000 (fun _ => 0) mgrW).invocations = 1 ∧
      (retryWithBackoff fnW3 5 2000 (fun _ => 0) mgrW).delays = []) ∧
    (retryWithBackoff fnW3r 4 2000 (fun _ => 0) mgrW).result =
      Except.error (some { status := some 429, message := none, payload := 11 }) :=
  ⟨final_error_propagated_verbatim.1 Nat fnW3 errW3 5 2000 (fun _ => 0) mgrW
      (by omega) (fun _ _ => rfl)
      (fun _ _ =>
        (by decide :
          isRetryable { status := some 400, message := some "Bad Request", payload := 7 } = false)),
   final_error_propagated_verbatim.2 Nat fnW3r errW3r 4 2000 (fun _ => 0) mgrW
      (by omega) (fun _ _ => rfl)
      (fun _ _ =>
        (by decide :
          isRetryable { status := some 429, message := none, payload := 11 } = true))⟩

/-- C4: whenever the jitter source draws values in [0,1), the i-th delay
slept by retryWithBackoff — the delays list is chronological and the run
starts at attempt 0, so element i is exactly the delay slept after attempt
i, before attempt i+1 — lies in the half-open interval from
baseDelayMs * 2^i (inclusive) to baseDelayMs * 2^i + 1000 (exclusive). -/
theorem retry_delays_within_jitter_window {α : Type}
    (fn : Nat → String → Except JsError α) (maxRetries : Nat)
    (base : ℚ) (rand : Nat → ℚ) (mgr : ApiKeyManager)
    (hrand : ∀ j, 0 ≤ rand j ∧ rand j < 1) :
    ∀ i, i < (retryWithBackoff fn maxRetries base rand mgr).delays.length →
      base * 2 ^ i ≤ (retryWithBackoff fn maxRetries base rand mgr).delays.getD i 0 ∧
      (retryWithBackoff fn maxRetries base rand mgr).delays.getD i 0 <
        base * 2 ^ i + 1000 := by
  intro i hi
  unfold retryWithBackoff at hi ⊢
  rw [retryAux_delays_getD fn maxRetries base rand maxRetries 0 none mgr i hi]
  rw [Nat.zero_add]
  constructor
  · have h0 := (hrand i).1
    have hj : (0 : ℚ) ≤ rand i * 1000 := mul_nonneg h0 (by norm_num)
    unfold attemptDelay
    linarith
  · have h1 := (hrand i).2
    have hj : rand i * 1000 < 1 * 1000 :=
      mul_lt_mul_of_pos_right h1 (by norm_num)
    unfold attemptDelay
    linarith

/-- C4 witness: the delay slept after the failing first attempt of fnW4
(attempt index 0) lies in the window of attempt 0. -/
theorem retry_delays_within_jitter_window_witness :
    (2000 : ℚ) * 2 ^ 0 ≤
      (retryWithBackoff fnW4 5 2000 (fun _ => 0) mgrW).delays.getD 0 0 ∧
    (retryWithBackoff fnW4 5 2000 (fun _ => 0) mgrW).delays.getD 0 0 <
      2000 * 2 ^ 0 + 1000 :=
  retry_delays_within_jitter_window fnW4 5 2000 (fun _ => 0) mgrW
    (fun _ => ⟨le_refl 0, by norm_num⟩) 0 (by decide)

/-- C6: when every attempt of the underlying remote call or its
normalization fails, processStudyContent does not propagate any error and
returns exactly the fixed FALLBACK_STUDY_MATERIAL, whose title is "Study
Material", whose summary is the documented sentence, and which carries
exactly one fallback flashcard and one fallback quiz question. -/
theorem facade_fallback_on_total_failure
    (remote : Option String → Nat → String → Except JsError String)
    (domain : String) (rand : Nat → ℚ) (mgr : ApiKeyManager)
    (hfail : ∀ i key, ∃ e,
      studyAttempt (remote (domainInstruction domain)) i key = Except.error e) :
    processStudyContent remote domain rand mgr = FALLBACK_STUDY_MATERIAL ∧
    jsonField FALLBACK_STUDY_MATERIAL "title" = some (Json.str "Study Material") ∧
    jsonField FALLBACK_STUDY_MATERIAL "summary" =
      some (Json.str
        "Unable to generate AI content. Please try again or adjust your input.") ∧
    (∃ cards, jsonField FALLBACK_STUDY_MATERIAL "flashcards" =
      some (Json.arr cards) ∧ cards.length = 1) ∧
    (∃ qs, jsonField FALLBACK_STUDY_MATERIAL "quiz" = some (Json.arr qs) ∧
      qs.length = 1) := by
  obtain ⟨eo, h⟩ := retryAux_allfail
    (studyAttempt (remote (domainInstruction domain))) 5 2000 rand hfail
    5 0 none mgr
  refine ⟨?_, rfl, rfl, ⟨_, rfl, rfl⟩, ⟨_, rfl, rfl⟩⟩
  simp only [processStudyContent, retryWithBackoff]
  rw [h]

/-- C6 witness: under a remote call that always fails with a 500 error the
façade returns the fallback material. -/
theorem facade_fallback_on_total_failure_witness :
    processStudyContent remoteW6 "PA" (fun _ => 0) mgrW =
      FALLBACK_STUDY_MATERIAL :=
  (facade_fallback_on_total_failure remoteW6 "PA" (fun _ => 0) mgrW
    (fun _ _ => ⟨_, rfl⟩)).1
